import Mathlib

/-
Formal model of the Robolab web-scanner edge function
(src/unnamed/part_010): the per-domain rate limiter, the six-analyzer
scan pipeline, score aggregation, top-issue extraction, the persisted
final scan update, and the page structure of the generated PDF report.

Modelling conventions:
- JS numbers are rationals (`ℚ`), JS timestamps are integer epoch
  milliseconds (`ℤ`).
- Each analyzer's network/DOM boundary (fetch + regex/DOM extraction)
  is cut at an `Except String Page` oracle: `Except.ok` carries the
  features the analyzer's regexes extract from the fetched page, and
  `Except.error` carries the message of a thrown exception, so the
  analyzer body downstream of the fetch is translated literally.
- Database writes are modelled as the records the code passes to
  `update`/`insert`.
-/

namespace Robolab

/-- JS `Math.round`: round half toward positive infinity. -/
def jsRound (q : ℚ) : ℤ := ⌊q + 1 / 2⌋

/-- JS `x || 0` on an optional number (`undefined`, like `0`, yields `0`). -/
def jsOrZero (x : Option ℚ) : ℚ :=
  match x with
  | some v => v
  | none => 0

/-- JS `x || y` on numbers: `x` is falsy exactly when it is `0`. -/
def jsOrNum (x y : ℚ) : ℚ := if x = 0 then y else x

/-- JS truthiness of an optional string (`undefined`/`null` and `""` are falsy). -/
def jsTruthyStr (s : Option String) : Bool := !(s.getD "" == "")

/-- JS `path.startsWith('/')`: the first character is `/`. -/
def startsWithSlash (s : String) : Bool := s.data.head? == some '/'

/-! ## Rate limiter (processScan, src/unnamed/part_010 lines 346-386)

One row of the `rate_limits` table, keyed by domain. -/

/-- A `rate_limits` row for one domain (timestamps in epoch milliseconds). -/
structure RateWindow where
  window_start : ℤ
  scan_count : ℕ
  last_scan_at : ℤ
  deriving Repr, DecidableEq

/-- Outcome of the rate-limit gate: admitted, or rejected with the 429
"Rate limit exceeded for this domain" response. -/
inductive RateDecision
  | admitted
  | rejected
  deriving Repr, DecidableEq

/-- One hour in milliseconds (`60 * 60 * 1000`). -/
def hourMs : ℤ := 60 * 60 * 1000

/-- The rate-limit gate of `processScan` (lines 354-386) for a fixed domain.
`now` is `Date.now()`; `st` is the domain's `rate_limits` row, if any.
If a row exists, is younger than one hour, and has `scan_count >= 5`, the
scan is rejected and the row is untouched; otherwise an existing row gets
`scan_count + 1` and a fresh `last_scan_at` (its `window_start` is NOT
touched), and a missing row is inserted with count 1. -/
def rateLimitStep (now : ℤ) (st : Option RateWindow) : RateDecision × Option RateWindow :=
  match st with
  | some rl =>
      if now - hourMs < rl.window_start ∧ 5 ≤ rl.scan_count then
        (.rejected, some rl)
      else
        (.admitted, some { rl with scan_count := rl.scan_count + 1, last_scan_at := now })
  | none =>
      (.admitted, some { window_start := now, scan_count := 1, last_scan_at := now })

/-- Run the rate-limit gate over a sequence of scan requests (their
`Date.now()` values, in order) against one domain, collecting decisions. -/
def runRate (ts : List ℤ) (st : Option RateWindow) : List RateDecision × Option RateWindow :=
  match ts with
  | [] => ([], st)
  | t :: rest =>
      let step := rateLimitStep t st
      let tail := runRate rest step.2
      (step.1 :: tail.1, tail.2)

/-! ## Analyzer result shapes (src/unnamed/part_010 lines 1619-1627) -/

/-- Issue severities used across analyzers and `top_issues`. -/
inductive Severity
  | critical
  | high
  | medium
  | low
  deriving Repr, DecidableEq

/-- Per-analyzer pipeline status (`PipelineSection.status`). -/
inductive AnalyzerStatus
  | pending
  | completed
  | failed
  deriving Repr, DecidableEq

/-- An issue pushed by `performSecurityScan`. -/
structure SecIssue where
  severity : Severity
  category : String
  description : String
  deriving Repr, DecidableEq

/-- An issue pushed by `performAccessibilityScan` (`count` is present only
on the per-count patterns). -/
structure A11yIssue where
  severity : Severity
  count : Option ℕ
  message : String
  wcag : String
  deriving Repr, DecidableEq

/-- A cross-analyzer entry of `top_issues`. -/
structure TopIssue where
  category : String
  severity : Severity
  description : String
  deriving Repr, DecidableEq

/-- Result of `performSecurityScan` (lines 1809-1897). -/
structure SecurityResults where
  status : AnalyzerStatus
  error : Option String
  issues : List SecIssue
  checks_performed : ℚ
  checks_passed : ℚ
  https_enabled : Bool
  deriving Repr

/-- The `core_web_vitals` object of a Google PageSpeed performance result. -/
structure CoreWebVitals where
  fcp : ℚ
  lcp : ℚ
  tti : ℚ
  tbt : ℚ
  cls : ℚ
  speedIndex : ℚ
  deriving Repr

/-- The `lighthouse_scores` object of a performance result (the basic
scan sets only `performance` and `seo`, hence every field is optional). -/
structure LighthouseScores where
  performance : Option ℚ
  accessibility : Option ℚ
  bestPractices : Option ℚ
  seo : Option ℚ
  pwa : Option ℚ
  deriving Repr

/-- Result of `performPerformanceScan` (lines 1899-1923). `score` and
`load_time_ms` are optional because the outer catch in `performScan`
produces a record without them. -/
structure PerformanceResults where
  status : AnalyzerStatus
  error : Option String
  score : Option ℚ
  load_time_ms : Option ℚ
  core_web_vitals : Option CoreWebVitals
  lighthouse_scores : Option LighthouseScores
  deriving Repr

/-- Result of `performE2EScan` (lines 1684-1764). -/
structure E2EResults where
  status : AnalyzerStatus
  error : Option String
  buttons_found : ℕ
  links_found : ℕ
  forms_found : ℕ
  primary_actions : List String
  deriving Repr

/-- One detected endpoint of `performAPIScan` (line 1789). -/
structure APIEndpoint where
  method : String
  path : String
  status : ℕ
  deriving Repr, DecidableEq

/-- Result of `performAPIScan` (lines 1766-1807). -/
structure APIResults where
  status : AnalyzerStatus
  error : Option String
  endpoints_detected : ℕ
  endpoints : List APIEndpoint
  deriving Repr

/-- Result of `performAccessibilityScan` (lines 2103-2228). -/
structure AccessibilityResults where
  status : AnalyzerStatus
  error : Option String
  issues : List A11yIssue
  total_issues : ℕ
  score : ℚ
  wcag_level : String
  deriving Repr

/-- One entry of `detectTechStack`'s `detected` array (lines 2248-2340). -/
structure TechEntry where
  name : String
  confidence : String
  version : Option String
  category : String
  deriving Repr, DecidableEq

/-- Result of `detectTechStack` (lines 2230-2356). -/
structure TechStackResult where
  status : AnalyzerStatus
  error : Option String
  detected : List TechEntry
  total_detected : ℕ
  deriving Repr

/-- The `results` object assembled by `performScan` (lines 1620-1627);
every field is optional exactly as in the TypeScript type, though
`performScan` always populates all six. -/
structure PipelineResults where
  e2e : Option E2EResults
  api : Option APIResults
  security : Option SecurityResults
  performance : Option PerformanceResults
  accessibility : Option AccessibilityResults
  techStack : Option TechStackResult
  deriving Repr

/-! ## Analyzers

Each analyzer receives an `Except String Page`: `ok` carries the features
its header inspection / regex scan extracts from the fetched response,
`error` carries the message of an exception thrown before or during the
fetch (timeout, network failure), which the analyzer's own `catch` block
turns into a failed result. -/

/-- Features `performSecurityScan` reads off the fetched response:
presence of the five checked headers, whether the body matches
`document.cookie\s*=`, and whether the target URL starts with `https`. -/
structure SecurityPage where
  hsts : Bool
  xContentTypeOptions : Bool
  xFrameOptions : Bool
  csp : Bool
  xXssProtection : Bool
  cookieManipulation : Bool
  httpsUrl : Bool
  deriving Repr, DecidableEq

/-- The record returned by `performSecurityScan`'s catch block
(lines 1886-1896). -/
def securityScanFailure (e : String) : SecurityResults :=
  { status := .failed
    error := some e
    issues := []
    checks_performed := 0
    checks_passed := 0
    https_enabled := false }

/-- `performSecurityScan` (lines 1809-1897): one issue per missing
control, `checks_performed` fixed at 7, `checks_passed = 7 - issues.length`. -/
def performSecurityScan (o : Except String SecurityPage) : SecurityResults :=
  match o with
  | .error e => securityScanFailure e
  | .ok page =>
      let issues : List SecIssue :=
        (if !page.hsts then
          [⟨.high, "Security", "Missing HSTS header - site vulnerable to protocol downgrade attacks"⟩]
         else []) ++
        (if !page.xContentTypeOptions then
          [⟨.medium, "Security", "Missing X-Content-Type-Options header - vulnerable to MIME sniffing"⟩]
         else []) ++
        (if !page.xFrameOptions && !page.csp then
          [⟨.high, "Security", "Missing X-Frame-Options/CSP - vulnerable to clickjacking attacks"⟩]
         else []) ++
        (if !page.csp then
          [⟨.medium, "Security", "No Content-Security-Policy - vulnerable to XSS attacks"⟩]
         else []) ++
        (if !page.xXssProtection then
          [⟨.low, "Security", "Missing X-XSS-Protection header"⟩]
         else []) ++
        (if page.cookieManipulation then
          [⟨.high, "Security", "JavaScript cookie manipulation detected - potential XSS vector"⟩]
         else [])
      { status := .completed
        error := none
        issues := issues
        checks_performed := 7
        checks_passed := 7 - (issues.length : ℚ)
        https_enabled := page.httpsUrl }

/-- Features `performE2EScan` extracts from the parsed page: the text
content of each `button`, and the counts of `a[href]` anchors and forms. -/
structure E2EPage where
  buttonTexts : List String
  linksFound : ℕ
  formsFound : ℕ
  deriving Repr, DecidableEq

/-- The record returned by `performE2EScan`'s catch block (lines 1753-1763);
the `!response.ok` early return (lines 1701-1711) has the same shape. -/
def e2eScanFailure (e : String) : E2EResults :=
  { status := .failed
    error := some e
    buttons_found := 0
    links_found := 0
    forms_found := 0
    primary_actions := [] }

/-- `performE2EScan` (lines 1684-1764): counts buttons, anchors and forms;
`primary_actions` is the first 5 non-empty trimmed button texts. -/
def performE2EScan (o : Except String E2EPage) : E2EResults :=
  match o with
  | .error e => e2eScanFailure e
  | .ok page =>
      { status := .completed
        error := none
        buttons_found := page.buttonTexts.length
        links_found := page.linksFound
        forms_found := page.formsFound
        primary_actions :=
          (((page.buttonTexts.map (fun t => t.trim)).filter (fun t => t != "")).take 5) }

/-- The record returned by `performAPIScan`'s catch block (lines 1798-1806). -/
def apiScanFailure (e : String) : APIResults :=
  { status := .failed
    error := some e
    endpoints_detected := 0
    endpoints := [] }

/-- `performAPIScan` (lines 1766-1807). The oracle's `ok` value is the list
of first-quoted-string arguments of the `fetch(...)`/`axios.x(...)`/
`$.ajax(...)` regex matches found in the page text, in match order; the
function keeps those starting with `/`, records the full count, and caps
the stored list at 10. No deduplication is performed. -/
def performAPIScan (o : Except String (List String)) : APIResults :=
  match o with
  | .error e => apiScanFailure e
  | .ok paths =>
      let endpoints : List APIEndpoint :=
        paths.filterMap fun p =>
          if startsWithSlash p then some ⟨"GET", p, 0⟩ else none
      { status := .completed
        error := none
        endpoints_detected := endpoints.length
        endpoints := endpoints.take 10 }

/-- A completed performance result as produced by either strategy
(`performGooglePageSpeedScan`, lines 1925-1988, or
`performBasicPerformanceScan`, lines 2047-2101); both return
`status: "completed"` records whose numeric payload we carry opaquely. -/
structure PerfSuccess where
  score : ℚ
  load_time_ms : ℚ
  core_web_vitals : Option CoreWebVitals
  lighthouse_scores : Option LighthouseScores
  deriving Repr

/-- The record returned by `performPerformanceScan`'s catch block
(lines 1914-1922): score 0, load time 0, status failed. -/
def performanceScanFailure (e : String) : PerformanceResults :=
  { status := .failed
    error := some e
    score := some 0
    load_time_ms := some 0
    core_web_vitals := none
    lighthouse_scores := none }

/-- `performPerformanceScan` (lines 1899-1923): delegates to one of the two
scan strategies (abstracted into the oracle's `ok` payload) and maps any
thrown error to the zero-score failed record. -/
def performPerformanceScan (o : Except String PerfSuccess) : PerformanceResults :=
  match o with
  | .error e => performanceScanFailure e
  | .ok d =>
      { status := .completed
        error := none
        score := some d.score
        load_time_ms := some d.load_time_ms
        core_web_vitals := d.core_web_vitals
        lighthouse_scores := d.lighthouse_scores }

/-- Features `performAccessibilityScan`'s regexes extract from the page
HTML (lines 2122-2205), one field per checked pattern. -/
structure A11yPage where
  imgWithoutAlt : ℕ
  hasLang : Bool
  buttonWithoutText : ℕ
  inputCount : ℕ
  labelCount : ℕ
  headingsCount : ℕ
  h1Count : ℕ
  linksWithoutText : ℕ
  hasSkipLink : Bool
  tabindexNegative : ℕ
  deriving Repr, DecidableEq

/-- Severity deduction table of `performAccessibilityScan` (line 2207);
the `|| 10` default is unreachable since all pushed severities are keys. -/
def severityPoints : Severity → ℚ
  | .critical => 25
  | .high => 15
  | .medium => 8
  | .low => 3

/-- The record returned by `performAccessibilityScan`'s catch block
(lines 2217-2227). -/
def accessibilityScanFailure (e : String) : AccessibilityResults :=
  { status := .failed
    error := some e
    issues := []
    total_issues := 0
    score := 0
    wcag_level := "Unable to determine" }

/-- `performAccessibilityScan` (lines 2103-2228): one issue per detected
pattern, score `max 0 (100 - Σ severity points)`, `wcag_level` driven by
the presence of a critical or high issue. -/
def performAccessibilityScan (o : Except String A11yPage) : AccessibilityResults :=
  match o with
  | .error e => accessibilityScanFailure e
  | .ok p =>
      let issues : List A11yIssue :=
        (if 0 < p.imgWithoutAlt then
          [⟨.critical, some p.imgWithoutAlt,
            toString p.imgWithoutAlt ++ " images missing alt text - screen readers cannot describe images",
            "WCAG 2.1 Level A (1.1.1)"⟩]
         else []) ++
        (if !p.hasLang then
          [⟨.high, none,
            "Missing lang attribute on html element - affects screen reader pronunciation",
            "WCAG 2.1 Level A (3.1.1)"⟩]
         else []) ++
        (if 0 < p.buttonWithoutText then
          [⟨.critical, some p.buttonWithoutText,
            toString p.buttonWithoutText ++ " buttons without accessible text - screen readers cannot announce purpose",
            "WCAG 2.1 Level A (4.1.2)"⟩]
         else []) ++
        (if p.labelCount + 2 < p.inputCount then
          [⟨.high, some (p.inputCount - p.labelCount),
            toString (p.inputCount - p.labelCount) ++ " form inputs possibly without labels - difficult for screen reader users",
            "WCAG 2.1 Level A (1.3.1, 3.3.2)"⟩]
         else []) ++
        (if p.h1Count = 0 ∧ 0 < p.headingsCount then
          [⟨.medium, none,
            "Page has no H1 heading - impacts document structure and navigation",
            "WCAG 2.1 Level A (1.3.1)"⟩]
         else if 1 < p.h1Count then
          [⟨.medium, none,
            "Page has " ++ toString p.h1Count ++ " H1 headings - should typically have only one",
            "WCAG 2.1 Best Practice"⟩]
         else []) ++
        (if 0 < p.linksWithoutText then
          [⟨.high, some p.linksWithoutText,
            toString p.linksWithoutText ++ " links without text - screen readers cannot announce destination",
            "WCAG 2.1 Level A (2.4.4)"⟩]
         else []) ++
        (if !p.hasSkipLink then
          [⟨.low, none,
            "No skip navigation link found - keyboard users must tab through all navigation",
            "WCAG 2.1 Level A (2.4.1)"⟩]
         else []) ++
        (if 0 < p.tabindexNegative then
          [⟨.medium, some p.tabindexNegative,
            toString p.tabindexNegative ++ " elements with negative tabindex - removes from keyboard navigation",
            "WCAG 2.1 Level A (2.1.1)"⟩]
         else [])
      let totalDeduction : ℚ := (issues.map (fun i => severityPoints i.severity)).sum
      { status := .completed
        error := none
        issues := issues
        total_issues := issues.length
        score := max 0 (100 - totalDeduction)
        wcag_level :=
          if issues.any (fun i =>
              match i.severity with
              | .critical => true
              | .high => true
              | _ => false) then
            "Fails Level A"
          else
            "Passes Level A (potential AA issues)" }

/-- The record returned by `detectTechStack`'s catch block (lines 2347-2355). -/
def techStackFailure (e : String) : TechStackResult :=
  { status := .failed
    error := some e
    detected := []
    total_detected := 0 }

/-- `detectTechStack` (lines 2230-2356): the signature matching against the
HTML and response headers is abstracted into the oracle's `ok` payload,
the list of detected technology entries in detection order. -/
def detectTechStack (o : Except String (List TechEntry)) : TechStackResult :=
  match o with
  | .error e => techStackFailure e
  | .ok detected =>
      { status := .completed
        error := none
        detected := detected
        total_detected := detected.length }

/-- The six analyzer oracles of one scan: each analyzer performs its own
fetch, so each has an independent outcome. -/
structure Oracles where
  e2e : Except String E2EPage
  api : Except String (List String)
  security : Except String SecurityPage
  performance : Except String PerfSuccess
  accessibility : Except String A11yPage
  techStack : Except String (List TechEntry)

/-- `performScan` (lines 1629-1682): invokes the six analyzers in sequence,
each inside its own try/catch, and always returns a fully populated
results object. In this model each analyzer is a total function of its
own oracle, so the outer catch blocks of `performScan` are dead code and
the per-field independence is structural, exactly as in the source where
each `try { results.x = ... } catch` touches only its own field. -/
def performScan (o : Oracles) : PipelineResults :=
  { e2e := some (performE2EScan o.e2e)
    api := some (performAPIScan o.api)
    security := some (performSecurityScan o.security)
    performance := some (performPerformanceScan o.performance)
    accessibility := some (performAccessibilityScan o.accessibility)
    techStack := some (detectTechStack o.techStack) }

/-! ## Aggregation (src/unnamed/part_010 lines 2419-2497) -/

/-- Contribution of the security result to `(totalScore, totalWeight)`
(lines 2468-2472): weight 0.3 when completed. The JS guards are
`checks_passed || 0` (identity on numbers up to the falsy 0) and
`checks_performed || 1` (maps 0 to 1). -/
def securityContrib (x : Option SecurityResults) : ℚ × ℚ :=
  match x with
  | some s =>
      if s.status = .completed then
        ((s.checks_passed / (if s.checks_performed = 0 then 1 else s.checks_performed)) * 100 * 0.3, 0.3)
      else (0, 0)
  | none => (0, 0)

/-- Contribution of the performance result (lines 2474-2477): its own
`score || 0`, weight 0.25 when completed. -/
def performanceContrib (x : Option PerformanceResults) : ℚ × ℚ :=
  match x with
  | some p =>
      if p.status = .completed then (jsOrZero p.score * 0.25, 0.25) else (0, 0)
  | none => (0, 0)

/-- Contribution of the accessibility result (lines 2479-2482): its own
`score || 0`, weight 0.25 when completed. -/
def accessibilityContrib (x : Option AccessibilityResults) : ℚ × ℚ :=
  match x with
  | some a =>
      if a.status = .completed then (a.score * 0.25, 0.25) else (0, 0)
  | none => (0, 0)

/-- Contribution of the e2e result (lines 2484-2488): 80 if any button was
found else 50, weight 0.1 when completed. -/
def e2eContrib (x : Option E2EResults) : ℚ × ℚ :=
  match x with
  | some e =>
      if e.status = .completed then
        ((if 0 < e.buttons_found then (80 : ℚ) else 50) * 0.1, 0.1)
      else (0, 0)
  | none => (0, 0)

/-- Contribution of the api result (lines 2490-2494): fixed 70, weight 0.1
when completed. -/
def apiContrib (x : Option APIResults) : ℚ × ℚ :=
  match x with
  | some a =>
      if a.status = .completed then ((70 : ℚ) * 0.1, 0.1) else (0, 0)
  | none => (0, 0)

/-- `calculateOverallScore` (lines 2456-2497): accumulate the five
weighted contributions, then `totalWeight > 0 ?
Math.round(totalScore / totalWeight) : 0`. -/
def calculateOverallScore (sr : PipelineResults) : ℤ :=
  let cSec := securityContrib sr.security
  let cPerf := performanceContrib sr.performance
  let cA11y := accessibilityContrib sr.accessibility
  let cE2e := e2eContrib sr.e2e
  let cApi := apiContrib sr.api
  let totalScore := cSec.1 + cPerf.1 + cA11y.1 + cE2e.1 + cApi.1
  let totalWeight := cSec.2 + cPerf.2 + cA11y.2 + cE2e.2 + cApi.2
  if 0 < totalWeight then jsRound (totalScore / totalWeight) else 0

/-- Sort rank used by `extractTopIssues` (lines 2450-2451). The JS source
is `sortOrder[a.severity] || 99` over `{critical: 0, high: 1, medium: 2,
low: 3}`; `sortOrder.critical = 0` is falsy, so critical actually ranks
99 and sorts last. -/
def severitySortKey : Severity → ℕ
  | .critical => 99
  | .high => 1
  | .medium => 2
  | .low => 3

/-- The synthetic high-severity performance entry of `extractTopIssues`
(lines 2443-2447). -/
def perfTopIssue (sc : ℚ) : TopIssue :=
  { category := "Performance"
    severity := .high
    description := "Poor performance score (" ++ toString sc ++ "/100) - site loads slowly" }

/-- The issue list `extractTopIssues` accumulates before sorting and
slicing (lines 2420-2448): all security issues, then all accessibility
issues, then the synthetic performance entry whenever a performance
result carries a defined score below 50 — its `status` is not consulted. -/
def topIssuesPre (sr : PipelineResults) : List TopIssue :=
  (match sr.security with
   | some s => s.issues.map fun i => ⟨i.category, i.severity, i.description⟩
   | none => []) ++
  (match sr.accessibility with
   | some a => a.issues.map fun i => ⟨"Accessibility", i.severity, i.message⟩
   | none => []) ++
  (match sr.performance with
   | some p =>
      match p.score with
      | some sc => if sc < 50 then [perfTopIssue sc] else []
      | none => []
   | none => [])

/-- The comparator of `extractTopIssues` (line 2451):
`sortOrder[a.severity] - sortOrder[b.severity] <= 0`. -/
def topIssueLE (a b : TopIssue) : Bool :=
  Nat.ble (severitySortKey a.severity) (severitySortKey b.severity)

/-- `extractTopIssues` (lines 2419-2454): stable sort by severity rank
(JS `Array.prototype.sort` is stable), then `slice(0, 10)`. -/
def extractTopIssues (sr : PipelineResults) : List TopIssue :=
  ((topIssuesPre sr).mergeSort topIssueLE).take 10

/-- Rank-at-most-1 predicate on severities: under `severitySortKey` the
rank of `high` is 1, the least value any severity attains (critical ranks
99), so a severity ranks ≤ 1 exactly when it is `high`. -/
def highRank (s : Severity) : Bool := Nat.ble (severitySortKey s) 1

/-- A `top_issues` entry whose severity sorts at the minimal rank 1. -/
def isHighRank (t : TopIssue) : Bool := highRank t.severity

/-! ## Final persisted update of `processScan`
(derived fields lines 470-476, update record lines 1573-1597) -/

/-- The fields of the single final `scan_results` update written by
`processScan` on its non-exception path (lines 1573-1597), restricted to
the scalar/derived fields; `processScan` reaches this write whenever the
rate limiter admits the scan, because every analyzer failure is caught
inside `performScan` and the OG-image, AI and PDF steps each swallow
their own errors. -/
structure ScanUpdate where
  scan_status : String
  overall_score : ℤ
  performance_score : ℚ
  seo_score : ℚ
  accessibility_issue_count : ℕ
  security_checks_passed : ℤ
  security_checks_total : ℕ
  technologies : List String
  exposed_endpoints : List String
  top_issues : List TopIssue
  deriving Repr

/-- `technologies` as derived at line 475:
`scanResults.techStack?.detected?.map((t) => t.name) || []`. -/
def techNames (sr : PipelineResults) : List String :=
  (sr.techStack.map fun t => t.detected.map fun e => e.name).getD []

/-- The final update record (lines 470-476 and 1573-1597):
`performance_score = performance?.score || lighthouse.performance || 0`,
`seo_score = lighthouse.seo || 0`,
`security_checks_passed = max(0, 7 - security issue count)` over
`security?.issues || []`, and `security_checks_total = 7`. -/
def processScanUpdate (sr : PipelineResults) : ScanUpdate :=
  let securityIssues := (sr.security.map fun s => s.issues).getD []
  { scan_status := "completed"
    overall_score := calculateOverallScore sr
    performance_score :=
      jsOrNum (jsOrZero (sr.performance.bind fun p => p.score))
        (jsOrZero ((sr.performance.bind fun p => p.lighthouse_scores).bind fun l => l.performance))
    seo_score := jsOrZero ((sr.performance.bind fun p => p.lighthouse_scores).bind fun l => l.seo)
    accessibility_issue_count := (sr.accessibility.map fun a => a.total_issues).getD 0
    security_checks_passed := max 0 (7 - (securityIssues.length : ℤ))
    security_checks_total := 7
    technologies := techNames sr
    exposed_endpoints := (sr.api.map fun a => a.endpoints.map fun e => e.path).getD []
    top_issues := extractTopIssues sr }

/-! ## PDF report pagination (src/unnamed/part_010 lines 478-1568) -/

/-- The labels of the Core Web Vitals page's metric rows (`vitalMetrics`,
lines 1153-1160), in draw order. -/
def vitalMetricLabels : List String :=
  ["First Contentful Paint (FCP)",
   "Largest Contentful Paint (LCP)",
   "Cumulative Layout Shift (CLS)",
   "Total Blocking Time (TBT)",
   "Time to Interactive (TTI)",
   "Speed Index"]

/-- The metric-drawing loop of the Core Web Vitals page (lines 1162-1197):
the vertical cursor starts at `pageHeight - 100 = 742`, each metric needs
`y >= 80` and advances the cursor by 40. -/
def cwvLoop (y : ℤ) : List String → List String
  | [] => []
  | l :: ls => if y < 80 then [] else l :: cwvLoop (y - 40) ls

/-- The metric labels actually drawn on the Core Web Vitals page. -/
def cwvDrawnLabels : List String := cwvLoop (842 - 100) vitalMetricLabels

/-- Number of pages `pdfDoc.addPage` is called for (lines 569-1565).
Pages 1-5 (executive summary, metrics overview, detailed results,
security & performance, accessibility & technologies) are unconditional;
page 6 needs `performance?.core_web_vitals`, page 7
`performance?.lighthouse_scores`, page 8 a truthy `scanResults.e2e`
(any object, whatever its status), page 9 a non-empty technology list and
page 10 a truthy AI summary or non-empty recommendation list. -/
def pdfPageCount (sr : PipelineResults) (aiSummary : Option String)
    (aiRecommendations : List String) : ℕ :=
  5
  + (if (sr.performance.bind fun p => p.core_web_vitals).isSome then 1 else 0)
  + (if (sr.performance.bind fun p => p.lighthouse_scores).isSome then 1 else 0)
  + (if sr.e2e.isSome then 1 else 0)
  + (if 0 < (techNames sr).length then 1 else 0)
  + (if jsTruthyStr aiSummary || !aiRecommendations.isEmpty then 1 else 0)

/-! ## Spec-side aggregation formula (for the refinement claim C2)

`overallScoreSpec` is written from the specification's words
("Weighted sum restricted to completed analyzers, weights: security 0.30,
performance 0.25, accessibility 0.25, interactive-elements 0.10,
api-surface 0.10; final score = Σ(analyzer_score × weight) / Σ(weight of
completed analyzers); if no analyzer completed, score = 0", with the
stated per-analyzer score mapping), to be compared with the translated
`calculateOverallScore`. -/

/-- The `(analyzer_score, weight)` pair the spec assigns to a completed
security result: `(checks_passed / checks_performed) × 100`, weight 0.30. -/
def securityPairsSpec (x : Option SecurityResults) : List (ℚ × ℚ) :=
  match x with
  | some s =>
      if s.status = .completed then [((s.checks_passed / s.checks_performed) * 100, 0.3)] else []
  | none => []

/-- Spec pair for a completed performance result: its own score, weight 0.25. -/
def performancePairsSpec (x : Option PerformanceResults) : List (ℚ × ℚ) :=
  match x with
  | some p => if p.status = .completed then [(jsOrZero p.score, 0.25)] else []
  | none => []

/-- Spec pair for a completed accessibility result: its own score, weight 0.25. -/
def accessibilityPairsSpec (x : Option AccessibilityResults) : List (ℚ × ℚ) :=
  match x with
  | some a => if a.status = .completed then [(a.score, 0.25)] else []
  | none => []

/-- Spec pair for a completed interactive-elements result: 80 if any
buttons were found else 50, weight 0.10. -/
def e2ePairsSpec (x : Option E2EResults) : List (ℚ × ℚ) :=
  match x with
  | some e =>
      if e.status = .completed then
        [((if 0 < e.buttons_found then (80 : ℚ) else 50), 0.1)]
      else []
  | none => []

/-- Spec pair for a completed api-surface result: fixed 70, weight 0.10. -/
def apiPairsSpec (x : Option APIResults) : List (ℚ × ℚ) :=
  match x with
  | some a => if a.status = .completed then [((70 : ℚ), 0.1)] else []
  | none => []

/-- The `(analyzer_score, weight)` pairs of all completed analyzers. -/
def overallPairsSpec (sr : PipelineResults) : List (ℚ × ℚ) :=
  securityPairsSpec sr.security ++ performancePairsSpec sr.performance ++
    accessibilityPairsSpec sr.accessibility ++ e2ePairsSpec sr.e2e ++ apiPairsSpec sr.api

/-- The spec's aggregation formula:
`round(Σ(analyzer_score × weight) / Σ(weight of completed analyzers))`,
and 0 if no analyzer completed. -/
def overallScoreSpec (sr : PipelineResults) : ℤ :=
  let pairs := overallPairsSpec sr
  if pairs = [] then 0
  else jsRound ((pairs.map fun p => p.1 * p.2).sum / (pairs.map fun p => p.2).sum)

/-! ## Helper lemmas -/

lemma rateLimitStep_count_low (now : ℤ) (rl : RateWindow) (h : rl.scan_count < 5) :
    rateLimitStep now (some rl) =
      (.admitted, some { rl with scan_count := rl.scan_count + 1, last_scan_at := now }) := by
  simp only [rateLimitStep]
  rw [if_neg]
  rintro ⟨-, h5⟩
  omega

lemma rateLimitStep_reject (now : ℤ) (rl : RateWindow)
    (h1 : now - hourMs < rl.window_start) (h2 : 5 ≤ rl.scan_count) :
    rateLimitStep now (some rl) = (.rejected, some rl) := by
  simp only [rateLimitStep]
  rw [if_pos ⟨h1, h2⟩]

lemma rateLimitStep_expired (now : ℤ) (rl : RateWindow)
    (h : ¬(now - hourMs < rl.window_start)) :
    rateLimitStep now (some rl) =
      (.admitted, some { rl with scan_count := rl.scan_count + 1, last_scan_at := now }) := by
  simp only [rateLimitStep]
  rw [if_neg]
  rintro ⟨h1, -⟩
  exact h h1

/-! ## Claims -/

/-- C1 (amended). Rate limiter admission for a fixed domain: a row within
the last 60 minutes with count ≥ 5 causes rejection, otherwise the count
is incremented (or a fresh row is created with count 1). Starting from no
row, admissions 1-5 succeed, the 6th inside the 60-minute window is
rejected, and the first admission after the window elapses succeeds but
increments the count to 6 — the count is never reset to 1 and
`window_start` is never refreshed. -/
theorem c1_rate_limit_amended (t1 t2 t3 t4 t5 t6 t7 : ℤ)
    (h6 : t6 - hourMs < t1) (h7 : ¬(t7 - hourMs < t1)) :
    runRate [t1, t2, t3, t4, t5, t6] none =
      ([.admitted, .admitted, .admitted, .admitted, .admitted, .rejected],
        some ⟨t1, 5, t5⟩) ∧
    rateLimitStep t7 (some ⟨t1, 5, t5⟩) = (.admitted, some ⟨t1, 6, t7⟩) := by
  have s1 : rateLimitStep t1 none = (.admitted, some ⟨t1, 1, t1⟩) := rfl
  have s2 : rateLimitStep t2 (some ⟨t1, 1, t1⟩) = (.admitted, some ⟨t1, 2, t2⟩) := by
    rw [rateLimitStep_count_low t2 ⟨t1, 1, t1⟩ (by norm_num)]
  have s3 : rateLimitStep t3 (some ⟨t1, 2, t2⟩) = (.admitted, some ⟨t1, 3, t3⟩) := by
    rw [rateLimitStep_count_low t3 ⟨t1, 2, t2⟩ (by norm_num)]
  have s4 : rateLimitStep t4 (some ⟨t1, 3, t3⟩) = (.admitted, some ⟨t1, 4, t4⟩) := by
    rw [rateLimitStep_count_low t4 ⟨t1, 3, t3⟩ (by norm_num)]
  have s5 : rateLimitStep t5 (some ⟨t1, 4, t4⟩) = (.admitted, some ⟨t1, 5, t5⟩) := by
    rw [rateLimitStep_count_low t5 ⟨t1, 4, t4⟩ (by norm_num)]
  have s6 : rateLimitStep t6 (some ⟨t1, 5, t5⟩) = (.rejected, some ⟨t1, 5, t5⟩) :=
    rateLimitStep_reject t6 ⟨t1, 5, t5⟩ h6 (by norm_num)
  have s7 : rateLimitStep t7 (some ⟨t1, 5, t5⟩) = (.admitted, some ⟨t1, 6, t7⟩) := by
    rw [rateLimitStep_expired t7 ⟨t1, 5, t5⟩ h7]
  refine ⟨?_, s7⟩
  simp [runRate, s1, s2, s3, s4, s5, s6]

/-- C1 witness: the amended theorem at the concrete trace 0,0,0,0,0,0
with the post-window admission at t = 3,600,000 ms. -/
theorem c1_rate_limit_witness :
    runRate [0, 0, 0, 0, 0, 0] none =
      ([.admitted, .admitted, .admitted, .admitted, .admitted, .rejected],
        some ⟨0, 5, 0⟩) ∧
    rateLimitStep 3600000 (some ⟨0, 5, 0⟩) = (.admitted, some ⟨0, 6, 3600000⟩) :=
  c1_rate_limit_amended 0 0 0 0 0 0 3600000 (by decide) (by decide)

/-- C1 counterexample: after five scans at t = 0 the row is
`⟨window_start 0, count 5⟩`; the first admission after the window elapses
(t = 3,600,000 ms) is admitted but sets the count to 6, not 1 — the claim
that it "resets the count to 1" is false. -/
theorem c1_rate_limit_counterexample :
    (runRate [0, 0, 0, 0, 0, 0] none).2 = some ⟨0, 5, 0⟩ ∧
    rateLimitStep 3600000 (some ⟨0, 5, 0⟩) = (.admitted, some ⟨0, 6, 3600000⟩) ∧
    ((6 : ℕ) = 1 → False) := by
  refine ⟨?_, ?_, by omega⟩ <;> decide

/-- Weighted-score and weight totals of a list of `(score, weight)` pairs. -/
def pairContrib (l : List (ℚ × ℚ)) : ℚ × ℚ :=
  ((l.map fun p => p.1 * p.2).sum, (l.map fun p => p.2).sum)

lemma securityContrib_eq (x : Option SecurityResults)
    (h : ∀ s, x = some s → s.status = .completed → s.checks_performed ≠ 0) :
    securityContrib x = pairContrib (securityPairsSpec x) := by
  cases x with
  | none => simp [securityContrib, securityPairsSpec, pairContrib]
  | some s =>
      by_cases hst : s.status = .completed
      · have hcp : s.checks_performed ≠ 0 := h s rfl hst
        simp [securityContrib, securityPairsSpec, pairContrib, hst, hcp]
      · simp [securityContrib, securityPairsSpec, pairContrib, hst]

lemma performanceContrib_eq (x : Option PerformanceResults) :
    performanceContrib x = pairContrib (performancePairsSpec x) := by
  cases x with
  | none => simp [performanceContrib, performancePairsSpec, pairContrib]
  | some p =>
      by_cases hst : p.status = .completed <;>
        simp [performanceContrib, performancePairsSpec, pairContrib, hst]

lemma accessibilityContrib_eq (x : Option AccessibilityResults) :
    accessibilityContrib x = pairContrib (accessibilityPairsSpec x) := by
  cases x with
  | none => simp [accessibilityContrib, accessibilityPairsSpec, pairContrib]
  | some a =>
      by_cases hst : a.status = .completed <;>
        simp [accessibilityContrib, accessibilityPairsSpec, pairContrib, hst]

lemma e2eContrib_eq (x : Option E2EResults) :
    e2eContrib x = pairContrib (e2ePairsSpec x) := by
  cases x with
  | none => simp [e2eContrib, e2ePairsSpec, pairContrib]
  | some e =>
      by_cases hst : e.status = .completed <;>
        simp [e2eContrib, e2ePairsSpec, pairContrib, hst]

lemma apiContrib_eq (x : Option APIResults) :
    apiContrib x = pairContrib (apiPairsSpec x) := by
  cases x with
  | none => simp [apiContrib, apiPairsSpec, pairContrib]
  | some a =>
      by_cases hst : a.status = .completed <;>
        simp [apiContrib, apiPairsSpec, pairContrib, hst]

lemma securityPairsSpec_weight {x p} (hp : p ∈ securityPairsSpec x) : p.2 = (0.3 : ℚ) := by
  cases x with
  | none => simp [securityPairsSpec] at hp
  | some s =>
      by_cases hst : s.status = .completed
      · simp [securityPairsSpec, hst] at hp
        rw [hp]
      · simp [securityPairsSpec, hst] at hp

lemma performancePairsSpec_weight {x p} (hp : p ∈ performancePairsSpec x) :
    p.2 = (0.25 : ℚ) := by
  cases x with
  | none => simp [performancePairsSpec] at hp
  | some s =>
      by_cases hst : s.status = .completed
      · simp [performancePairsSpec, hst] at hp
        rw [hp]
      · simp [performancePairsSpec, hst] at hp

lemma accessibilityPairsSpec_weight {x p} (hp : p ∈ accessibilityPairsSpec x) :
    p.2 = (0.25 : ℚ) := by
  cases x with
  | none => simp [accessibilityPairsSpec] at hp
  | some s =>
      by_cases hst : s.status = .completed
      · simp [accessibilityPairsSpec, hst] at hp
        rw [hp]
      · simp [accessibilityPairsSpec, hst] at hp

lemma e2ePairsSpec_weight {x p} (hp : p ∈ e2ePairsSpec x) : p.2 = (0.1 : ℚ) := by
  cases x with
  | none => simp [e2ePairsSpec] at hp
  | some s =>
      by_cases hst : s.status = .completed
      · simp [e2ePairsSpec, hst] at hp
        rw [hp]
      · simp [e2ePairsSpec, hst] at hp

lemma apiPairsSpec_weight {x p} (hp : p ∈ apiPairsSpec x) : p.2 = (0.1 : ℚ) := by
  cases x with
  | none => simp [apiPairsSpec] at hp
  | some s =>
      by_cases hst : s.status = .completed
      · simp [apiPairsSpec, hst] at hp
        rw [hp]
      · simp [apiPairsSpec, hst] at hp

lemma overallPairsSpec_weight_pos (sr : PipelineResults) :
    ∀ p ∈ overallPairsSpec sr, (0 : ℚ) < p.2 := by
  intro p hp
  simp only [overallPairsSpec, List.mem_append] at hp
  rcases hp with ((((h | h) | h) | h) | h)
  · rw [securityPairsSpec_weight h]; norm_num
  · rw [performancePairsSpec_weight h]; norm_num
  · rw [accessibilityPairsSpec_weight h]; norm_num
  · rw [e2ePairsSpec_weight h]; norm_num
  · rw [apiPairsSpec_weight h]; norm_num

lemma sum_weights_pos {l : List (ℚ × ℚ)} (hl : l ≠ []) (h : ∀ p ∈ l, 0 < p.2) :
    0 < (l.map fun p => p.2).sum := by
  cases l with
  | nil => exact absurd rfl hl
  | cons a as =>
      have ha : 0 < a.2 := h a (List.mem_cons_self a as)
      have has : 0 ≤ (as.map fun p => p.2).sum := by
        apply List.sum_nonneg
        intro q hq
        simp only [List.mem_map] at hq
        obtain ⟨p, hp, rfl⟩ := hq
        exact le_of_lt (h p (List.mem_cons_of_mem a hp))
      simp only [List.map_cons, List.sum_cons]
      linarith

lemma calculateOverallScore_pairs (sr : PipelineResults)
    (hsec : ∀ s, sr.security = some s → s.status = .completed → s.checks_performed ≠ 0) :
    calculateOverallScore sr =
      if 0 < (pairContrib (overallPairsSpec sr)).2 then
        jsRound ((pairContrib (overallPairsSpec sr)).1 / (pairContrib (overallPairsSpec sr)).2)
      else 0 := by
  unfold calculateOverallScore
  rw [securityContrib_eq sr.security hsec, performanceContrib_eq, accessibilityContrib_eq,
    e2eContrib_eq, apiContrib_eq]
  simp only [overallPairsSpec, pairContrib, List.map_append, List.sum_append]

/-- C2. The aggregated overall score computed by `calculateOverallScore`
equals the specified weighted formula `round(Σ(analyzer_score × weight) /
Σ(weight of completed analyzers))` restricted to completed analyzers with
the stated per-analyzer score mapping, and is 0 when no analyzer
completed — provided any completed security result has a nonzero
`checks_performed` (the pipeline always sets 7; at 0 the spec formula's
division is undefined while the code substitutes 1). -/
theorem c2_overall_score_matches_spec (sr : PipelineResults)
    (hsec : ∀ s, sr.security = some s → s.status = .completed → s.checks_performed ≠ 0) :
    calculateOverallScore sr = overallScoreSpec sr := by
  rw [calculateOverallScore_pairs sr hsec]
  unfold overallScoreSpec
  by_cases h : overallPairsSpec sr = []
  · simp [h, pairContrib]
  · rw [if_neg h]
    have hpos : 0 < (pairContrib (overallPairsSpec sr)).2 :=
      sum_weights_pos h (overallPairsSpec_weight_pos sr)
    rw [if_pos hpos]
    rfl

/-- A concrete all-completed result set used to exercise the aggregator:
security 7/7, performance 50, accessibility 80, two buttons found, api
completed. -/
def c2Results : PipelineResults :=
  { e2e := some ⟨.completed, none, 2, 3, 1, ["Buy"]⟩
    api := some ⟨.completed, none, 0, []⟩
    security := some ⟨.completed, none, [], 7, 7, true⟩
    performance := some ⟨.completed, none, some 50, some 1000, none, none⟩
    accessibility := some ⟨.completed, none, [], 0, 80, "Passes Level A (potential AA issues)"⟩
    techStack := none }

/-- C2 witness: the aggregation theorem at a concrete all-completed result
set; both formulas yield round((30 + 12.5 + 20 + 8 + 7) / 1) = 78. -/
theorem c2_witness :
    calculateOverallScore c2Results = overallScoreSpec c2Results ∧
    calculateOverallScore c2Results = 78 := by
  constructor
  · exact c2_overall_score_matches_spec c2Results (by
      intro s hs hc
      simp only [c2Results, Option.some.injEq] at hs
      subst hs
      norm_num)
  · norm_num [calculateOverallScore, c2Results, securityContrib, performanceContrib,
      accessibilityContrib, e2eContrib, apiContrib, jsOrZero, jsRound]

/-- The pipeline output when every analyzer's fetch throws: all six
sections carry the corresponding catch-block record. -/
def allFailedOracles : Oracles :=
  { e2e := .error "fetch failed"
    api := .error "fetch failed"
    security := .error "fetch failed"
    performance := .error "fetch failed"
    accessibility := .error "fetch failed"
    techStack := .error "fetch failed" }

/-- The results object `performScan` returns for `allFailedOracles`. -/
def allFailedResults : PipelineResults := performScan allFailedOracles

/-- C3 (amended). For every scan in which zero analyzers reach
status=completed, the overall score is 0 — but the final persisted status
written by `processScan` is "completed", not "failed": the analyzer
failures are all caught inside `performScan`, so `processScan` proceeds
to its single final update, which hard-codes `scan_status: "completed"`
("failed" is written only on rate-limit rejection or an infrastructure
exception). -/
theorem c3_zero_completed_amended (sr : PipelineResults)
    (he : ∀ r, sr.e2e = some r → r.status ≠ .completed)
    (hap : ∀ r, sr.api = some r → r.status ≠ .completed)
    (hs : ∀ r, sr.security = some r → r.status ≠ .completed)
    (hp : ∀ r, sr.performance = some r → r.status ≠ .completed)
    (hac : ∀ r, sr.accessibility = some r → r.status ≠ .completed)
    (ht : ∀ r, sr.techStack = some r → r.status ≠ .completed) :
    calculateOverallScore sr = 0 ∧ (processScanUpdate sr).scan_status = "completed" := by
  refine ⟨?_, rfl⟩
  have h1 : securityContrib sr.security = (0, 0) := by
    cases hx : sr.security with
    | none => simp [securityContrib]
    | some s => simp [securityContrib, hs s hx]
  have h2 : performanceContrib sr.performance = (0, 0) := by
    cases hx : sr.performance with
    | none => simp [performanceContrib]
    | some s => simp [performanceContrib, hp s hx]
  have h3 : accessibilityContrib sr.accessibility = (0, 0) := by
    cases hx : sr.accessibility with
    | none => simp [accessibilityContrib]
    | some s => simp [accessibilityContrib, hac s hx]
  have h4 : e2eContrib sr.e2e = (0, 0) := by
    cases hx : sr.e2e with
    | none => simp [e2eContrib]
    | some s => simp [e2eContrib, he s hx]
  have h5 : apiContrib sr.api = (0, 0) := by
    cases hx : sr.api with
    | none => simp [apiContrib]
    | some s => simp [apiContrib, hap s hx]
  simp [calculateOverallScore, h1, h2, h3, h4, h5]

/-- C3 counterexample: a scan in which all six analyzers failed gets
overall score 0, but its persisted status is "completed" — the claim's
"final persisted status is failed" is false. -/
theorem c3_counterexample :
    calculateOverallScore allFailedResults = 0 ∧
    (processScanUpdate allFailedResults).scan_status = "completed" ∧
    (processScanUpdate allFailedResults).scan_status ≠ "failed" := by
  refine ⟨?_, rfl, by decide⟩
  simp [allFailedResults, performScan, allFailedOracles, performE2EScan, performAPIScan,
    performSecurityScan, performPerformanceScan, performAccessibilityScan, detectTechStack,
    e2eScanFailure, apiScanFailure, securityScanFailure, performanceScanFailure,
    accessibilityScanFailure, techStackFailure, calculateOverallScore, securityContrib,
    performanceContrib, accessibilityContrib, e2eContrib, apiContrib]

/-- C3 witness: the amended theorem at the all-failed pipeline output. -/
theorem c3_witness :
    calculateOverallScore allFailedResults = 0 ∧
    (processScanUpdate allFailedResults).scan_status = "completed" := by
  apply c3_zero_completed_amended allFailedResults <;>
    (rintro r hr; cases hr; decide)

/-- C4. Analyzer failure isolation: an error thrown inside any analyzer is
caught at that analyzer's boundary and yields its catch-block record —
status failed, the thrown message as the descriptive error, zero-valued
metrics — and each of the six pipeline sections always equals its own
analyzer's output on its own oracle, so one analyzer's failure never
prevents the others from being invoked and never aborts the scan
(`performScan` is total). -/
theorem c4_analyzer_isolation (o : Oracles) (e : String) :
    (o.e2e = .error e → (performScan o).e2e = some (e2eScanFailure e)) ∧
    (o.api = .error e → (performScan o).api = some (apiScanFailure e)) ∧
    (o.security = .error e → (performScan o).security = some (securityScanFailure e)) ∧
    (o.performance = .error e → (performScan o).performance = some (performanceScanFailure e)) ∧
    (o.accessibility = .error e →
      (performScan o).accessibility = some (accessibilityScanFailure e)) ∧
    (o.techStack = .error e → (performScan o).techStack = some (techStackFailure e)) ∧
    ((performScan o).e2e = some (performE2EScan o.e2e) ∧
      (performScan o).api = some (performAPIScan o.api) ∧
      (performScan o).security = some (performSecurityScan o.security) ∧
      (performScan o).performance = some (performPerformanceScan o.performance) ∧
      (performScan o).accessibility = some (performAccessibilityScan o.accessibility) ∧
      (performScan o).techStack = some (detectTechStack o.techStack)) := by
  refine ⟨fun h => ?_, fun h => ?_, fun h => ?_, fun h => ?_, fun h => ?_, fun h => ?_,
    rfl, rfl, rfl, rfl, rfl, rfl⟩ <;>
    simp [performScan, h, performE2EScan, performAPIScan, performSecurityScan,
      performPerformanceScan, performAccessibilityScan, detectTechStack]

/-- C4 witness: the isolation theorem at the all-error oracle. -/
theorem c4_witness :
    (performScan allFailedOracles).security = some (securityScanFailure "fetch failed") ∧
    (performScan allFailedOracles).accessibility =
      some (accessibilityScanFailure "fetch failed") := by
  have h := c4_analyzer_isolation allFailedOracles "fetch failed"
  exact ⟨h.2.2.1 rfl, h.2.2.2.2.1 rfl⟩

/-- The security page with all five checked headers absent and no
cookie-manipulation script, over an https URL. -/
def allMissingHeadersPage : SecurityPage :=
  { hsts := false
    xContentTypeOptions := false
    xFrameOptions := false
    csp := false
    xXssProtection := false
    cookieManipulation := false
    httpsUrl := true }

/-- C5. A response missing all five checked headers with no
cookie-manipulation script yields exactly 5 security issues and
checks_passed = 2 of checks_performed = 7; and every completed security
scan satisfies checks_passed = 7 − issue count. -/
theorem c5_security_checks (o : Except String SecurityPage) (page : SecurityPage)
    (hh : page.hsts = false) (hct : page.xContentTypeOptions = false)
    (hf : page.xFrameOptions = false) (hcsp : page.csp = false)
    (hx : page.xXssProtection = false) (hck : page.cookieManipulation = false) :
    ((performSecurityScan (.ok page)).issues.length = 5 ∧
      (performSecurityScan (.ok page)).checks_passed = 2 ∧
      (performSecurityScan (.ok page)).checks_performed = 7) ∧
    ((performSecurityScan o).status = .completed →
      (performSecurityScan o).checks_passed =
        7 - ((performSecurityScan o).issues.length : ℚ)) := by
  constructor
  · simp [performSecurityScan, hh, hct, hf, hcsp, hx, hck]
    norm_num
  · cases o with
    | error e =>
        intro hst
        simp [performSecurityScan, securityScanFailure] at hst
    | ok p => intro _; rfl

/-- C5 witness: the security theorem at the all-missing-headers page. -/
theorem c5_witness :
    ((performSecurityScan (.ok allMissingHeadersPage)).issues.length = 5 ∧
      (performSecurityScan (.ok allMissingHeadersPage)).checks_passed = 2 ∧
      (performSecurityScan (.ok allMissingHeadersPage)).checks_performed = 7) ∧
    ((performSecurityScan (.ok allMissingHeadersPage)).status = .completed →
      (performSecurityScan (.ok allMissingHeadersPage)).checks_passed =
        7 - ((performSecurityScan (.ok allMissingHeadersPage)).issues.length : ℚ)) :=
  c5_security_checks (.ok allMissingHeadersPage) allMissingHeadersPage
    rfl rfl rfl rfl rfl rfl

/-- The accessibility page of the C6 scenario: 3 images without alt, no
lang attribute, and no other flagged pattern (in particular a skip link
is present, since its absence would be flagged as a low issue). -/
def c6Page : A11yPage :=
  { imgWithoutAlt := 3
    hasLang := false
    buttonWithoutText := 0
    inputCount := 0
    labelCount := 0
    headingsCount := 0
    h1Count := 0
    linksWithoutText := 0
    hasSkipLink := true
    tabindexNegative := 0 }

/-- C6. HTML with 3 `img` tags lacking `alt`, an `html` tag lacking
`lang`, and no other flagged pattern yields exactly 2 issues — one
critical image-alt issue carrying count = 3 and one high language issue —
and wcag_level = "Fails Level A". -/
theorem c6_accessibility_scenario (p : A11yPage)
    (h1 : p.imgWithoutAlt = 3) (h2 : p.hasLang = false)
    (h3 : p.buttonWithoutText = 0) (h4 : p.inputCount ≤ p.labelCount + 2)
    (h5 : ¬(p.h1Count = 0 ∧ 0 < p.headingsCount)) (h6 : p.h1Count ≤ 1)
    (h7 : p.linksWithoutText = 0) (h8 : p.hasSkipLink = true)
    (h9 : p.tabindexNegative = 0) :
    (performAccessibilityScan (.ok p)).issues =
      [⟨.critical, some 3,
        "3 images missing alt text - screen readers cannot describe images",
        "WCAG 2.1 Level A (1.1.1)"⟩,
       ⟨.high, none,
        "Missing lang attribute on html element - affects screen reader pronunciation",
        "WCAG 2.1 Level A (3.1.1)"⟩] ∧
    (performAccessibilityScan (.ok p)).total_issues = 2 ∧
    (performAccessibilityScan (.ok p)).wcag_level = "Fails Level A" := by
  have hissues : (performAccessibilityScan (.ok p)).issues =
      [⟨.critical, some 3,
        "3 images missing alt text - screen readers cannot describe images",
        "WCAG 2.1 Level A (1.1.1)"⟩,
       ⟨.high, none,
        "Missing lang attribute on html element - affects screen reader pronunciation",
        "WCAG 2.1 Level A (3.1.1)"⟩] := by
    simp only [performAccessibilityScan]
    rw [h1, h2, h3, h7, h8, h9]
    rw [if_neg (by omega : ¬ p.labelCount + 2 < p.inputCount),
      if_neg h5, if_neg (by omega : ¬ 1 < p.h1Count)]
    simp
    rfl
  refine ⟨hissues, ?_, ?_⟩
  · show (performAccessibilityScan (.ok p)).issues.length = 2
    rw [hissues]
    rfl
  · show (if (performAccessibilityScan (.ok p)).issues.any _ then _ else _) = _
    rw [hissues]
    rfl

/-- C6 witness: the scenario theorem at the concrete page `c6Page`. -/
theorem c6_witness :
    (performAccessibilityScan (.ok c6Page)).issues =
      [⟨.critical, some 3,
        "3 images missing alt text - screen readers cannot describe images",
        "WCAG 2.1 Level A (1.1.1)"⟩,
       ⟨.high, none,
        "Missing lang attribute on html element - affects screen reader pronunciation",
        "WCAG 2.1 Level A (3.1.1)"⟩] ∧
    (performAccessibilityScan (.ok c6Page)).total_issues = 2 ∧
    (performAccessibilityScan (.ok c6Page)).wcag_level = "Fails Level A" :=
  c6_accessibility_scenario c6Page rfl rfl rfl (by decide) (by decide) (by decide) rfl rfl rfl

/-- C7 counterexample: a page whose script text contains the same
HTTP-call path twice yields that path twice in the returned endpoint
list — the claim that the list "is deduplicated (no path appears twice)"
is false. -/
theorem c7_api_counterexample :
    ((performAPIScan (.ok ["/api/x", "/api/x"])).endpoints.map fun ep => ep.path) =
      ["/api/x", "/api/x"] ∧
    ¬ ((performAPIScan (.ok ["/api/x", "/api/x"])).endpoints.map fun ep => ep.path).Nodup := by
  constructor <;> decide

/-- C7 (amended). The API-Surface endpoint list contains only
root-relative paths taken from the extracted HTTP-call arguments of the
page text, preserved in match order without deduplication (a repeated
path appears repeatedly), and is capped at 10 entries. -/
theorem c7_api_endpoints_amended (paths : List String) :
    (performAPIScan (.ok paths)).endpoints.length ≤ 10 ∧
    ∀ ep ∈ (performAPIScan (.ok paths)).endpoints,
      ep.method = "GET" ∧ startsWithSlash ep.path = true ∧ ep.path ∈ paths := by
  constructor
  · exact List.length_take_le 10 _
  · intro ep hep
    have hep' := List.mem_of_mem_take hep
    rw [List.mem_filterMap] at hep'
    obtain ⟨p, hp, hf⟩ := hep'
    by_cases hs : startsWithSlash p = true
    · rw [if_pos hs, Option.some.injEq] at hf
      subst hf
      exact ⟨rfl, hs, hp⟩
    · rw [if_neg hs] at hf
      cases hf

/-- C7 witness: the amended theorem at a concrete extraction with one
root-relative and one non-root-relative path. -/
theorem c7_witness :
    (performAPIScan (.ok ["/a", "b"])).endpoints.length ≤ 10 ∧
    (APIEndpoint.mk "GET" "/a" 0).method = "GET" ∧
    startsWithSlash (APIEndpoint.mk "GET" "/a" 0).path = true ∧
    (APIEndpoint.mk "GET" "/a" 0).path ∈ ["/a", "b"] := by
  have h := c7_api_endpoints_amended ["/a", "b"]
  exact ⟨h.1, h.2 ⟨"GET", "/a", 0⟩ (by decide)⟩

/-- A completed scan carrying no optional report sections: no Core Web
Vitals, no lighthouse scores, no detected technologies, with the
always-present e2e section. -/
def c8Base : PipelineResults :=
  { e2e := some ⟨.completed, none, 0, 0, 0, []⟩
    api := some ⟨.completed, none, 0, []⟩
    security := some ⟨.completed, none, [], 7, 7, true⟩
    performance := some ⟨.completed, none, some 88, some 900, none, none⟩
    accessibility := some ⟨.completed, none, [], 0, 100, "Passes Level A (potential AA issues)"⟩
    techStack := some ⟨.completed, none, [], 0⟩ }

/-- A concrete Core Web Vitals payload. -/
def c8Cwv : CoreWebVitals := ⟨1200, 2400, 3500, 150, 1 / 10, 2000⟩

/-- C8 counterexample: the report for a completed scan with only
Executive-Summary-eligible data has 6 pages, not 1 — pages 1-5 are
emitted unconditionally and the E2E page is emitted for every pipeline
result, since `performScan` always sets the e2e section and the page-8
guard `if (scanResults.e2e)` only tests object truthiness. -/
theorem c8_counterexample :
    pdfPageCount c8Base none [] = 6 ∧ (6 : ℕ) ≠ 1 := by
  constructor <;> decide

/-- C8 (amended). A completed scan with only Executive-Summary-eligible
data produces a report of exactly 6 pages (the five unconditional pages
plus the always-present E2E page); adding Core Web Vitals data to the
same scan adds exactly 1 additional page, which draws all 6 named
metrics (FCP, LCP, CLS, TBT, TTI, Speed Index). -/
theorem c8_report_pages_amended (sr : PipelineResults) (p : PerformanceResults)
    (c : CoreWebVitals) (hp : sr.performance = some p) (hc : p.core_web_vitals = none)
    (hl : p.lighthouse_scores = none) (he : sr.e2e.isSome = true)
    (ht : techNames sr = []) :
    pdfPageCount sr none [] = 6 ∧
    pdfPageCount { sr with performance := some { p with core_web_vitals := some c } } none [] = 7 ∧
    cwvDrawnLabels = vitalMetricLabels ∧ vitalMetricLabels.length = 6 := by
  refine ⟨?_, ?_, by decide, by decide⟩
  · simp [pdfPageCount, hp, hc, hl, he, ht, jsTruthyStr]
  · simp [pdfPageCount, hp, hc, hl, he, jsTruthyStr]
    exact ht

/-- C8 witness: the amended theorem at the concrete scan `c8Base` with
the Core Web Vitals payload `c8Cwv`. -/
theorem c8_witness :
    pdfPageCount c8Base none [] = 6 ∧
    pdfPageCount
      { c8Base with
        performance := some ⟨.completed, none, some 88, some 900, some c8Cwv, none⟩ } none [] = 7 ∧
    cwvDrawnLabels = vitalMetricLabels ∧ vitalMetricLabels.length = 6 :=
  c8_report_pages_amended c8Base ⟨.completed, none, some 88, some 900, none, none⟩ c8Cwv
    rfl rfl rfl rfl (by decide)

/-- C9. For every scan whose security analyzer ends failed, the persisted
`security_checks_passed` equals 7 of `security_checks_total = 7`: the
failed analyzer carries an empty issue list and the persisted value is
`max(0, 7 - issue count)`, so a completely failed security check is
recorded exactly like a perfect pass. -/
theorem c9_failed_security_persists_full_pass (o : Oracles)
    (h : (performSecurityScan o.security).status = .failed) :
    (processScanUpdate (performScan o)).security_checks_passed = 7 ∧
    (processScanUpdate (performScan o)).security_checks_total = 7 := by
  refine ⟨?_, rfl⟩
  cases hs : o.security with
  | ok page =>
      rw [hs] at h
      simp [performSecurityScan] at h
  | error e =>
      simp [processScanUpdate, performScan, hs, performSecurityScan, securityScanFailure]

/-- C9 witness: the persistence theorem at the all-error oracle. -/
theorem c9_witness :
    (processScanUpdate (performScan allFailedOracles)).security_checks_passed = 7 ∧
    (processScanUpdate (performScan allFailedOracles)).security_checks_total = 7 :=
  c9_failed_security_persists_full_pass allFailedOracles (by decide)

lemma topIssueLE_trans (a b c : TopIssue) (h1 : topIssueLE a b = true)
    (h2 : topIssueLE b c = true) : topIssueLE a c = true := by
  simp only [topIssueLE, Nat.ble_eq] at h1 h2 ⊢
  omega

lemma topIssueLE_total (a b : TopIssue) : (topIssueLE a b || topIssueLE b a) = true := by
  simp only [topIssueLE, Bool.or_eq_true, Nat.ble_eq]
  omega

lemma countP_ite_le_one {α} (b : Prop) [Decidable b] (x : α) (p : α → Bool) :
    List.countP p (if b then [x] else []) ≤ 1 := by
  split
  · simp only [List.countP_cons, List.countP_nil]
    split <;> omega
  · simp

lemma countP_ite_eq_zero {α} {b : Prop} [Decidable b] {x : α} {p : α → Bool}
    (hx : p x = false) :
    List.countP p (if b then [x] else []) = 0 := by
  split <;> simp [List.countP_cons, hx]

lemma countP_ite2_eq_zero {α} {A B : Prop} [Decidable A] [Decidable B] {x y : α}
    {p : α → Bool} (hx : p x = false) (hy : p y = false) :
    List.countP p (if A then [x] else if B then [y] else []) = 0 := by
  split
  · simp [List.countP_cons, hx]
  · split <;> simp [List.countP_cons, hy]

/-- The security analyzer pushes at most 3 high-severity issues (HSTS,
clickjacking, cookie manipulation); the other three possible issues are
medium or low. -/
lemma security_high_count (x : Except String SecurityPage) :
    List.countP isHighRank
      ((performSecurityScan x).issues.map fun i =>
        (⟨i.category, i.severity, i.description⟩ : TopIssue)) ≤ 3 := by
  cases x with
  | error e => simp [performSecurityScan, securityScanFailure]
  | ok page =>
      rw [List.countP_map]
      show List.countP (fun i : SecIssue => highRank i.severity)
        (performSecurityScan (.ok page)).issues ≤ 3
      simp only [performSecurityScan, List.countP_append]
      exact le_trans
        (Nat.add_le_add (Nat.add_le_add (Nat.add_le_add (Nat.add_le_add (Nat.add_le_add
          (countP_ite_le_one _ _ _)
          (le_of_eq (countP_ite_eq_zero rfl)))
          (countP_ite_le_one _ _ _))
          (le_of_eq (countP_ite_eq_zero rfl)))
          (le_of_eq (countP_ite_eq_zero rfl)))
          (countP_ite_le_one _ _ _))
        (by norm_num)

/-- The accessibility analyzer pushes at most 3 high-severity issues
(language, unlabeled inputs, empty links); images and empty buttons are
critical (rank 99), headings are medium, the skip link is low, negative
tabindex is medium. -/
lemma accessibility_high_count (x : Except String A11yPage) :
    List.countP isHighRank
      ((performAccessibilityScan x).issues.map fun i =>
        (⟨"Accessibility", i.severity, i.message⟩ : TopIssue)) ≤ 3 := by
  cases x with
  | error e => simp [performAccessibilityScan, accessibilityScanFailure]
  | ok p =>
      rw [List.countP_map]
      show List.countP (fun i : A11yIssue => highRank i.severity)
        (performAccessibilityScan (.ok p)).issues ≤ 3
      simp only [performAccessibilityScan, List.countP_append]
      exact le_trans
        (Nat.add_le_add (Nat.add_le_add (Nat.add_le_add (Nat.add_le_add (Nat.add_le_add
          (Nat.add_le_add (Nat.add_le_add
          (le_of_eq (countP_ite_eq_zero rfl))
          (countP_ite_le_one _ _ _))
          (le_of_eq (countP_ite_eq_zero rfl)))
          (countP_ite_le_one _ _ _))
          (le_of_eq (countP_ite2_eq_zero rfl rfl)))
          (countP_ite_le_one _ _ _))
          (le_of_eq (countP_ite_eq_zero rfl)))
          (le_of_eq (countP_ite_eq_zero rfl)))
        (by norm_num)

/-- The synthetic performance segment contributes at most one entry. -/
lemma perf_segment_count (y : Option ℚ) :
    List.countP isHighRank
      (match y with
       | some sc => if sc < 50 then [perfTopIssue sc] else []
       | none => []) ≤ 1 := by
  cases y with
  | none => simp
  | some sc =>
      show List.countP isHighRank (if sc < 50 then [perfTopIssue sc] else []) ≤ 1
      split
      · simp only [List.countP_cons, List.countP_nil]
        split <;> omega
      · simp

/-- Any pipeline-produced pre-slice issue list carries at most 7 entries
of the minimal sort rank (at most 3 high security issues, 3 high
accessibility issues, and the one synthetic performance entry). -/
lemma topIssuesPre_high_count (o : Oracles) :
    List.countP isHighRank (topIssuesPre (performScan o)) ≤ 7 := by
  show List.countP isHighRank
    (((performSecurityScan o.security).issues.map fun i =>
        (⟨i.category, i.severity, i.description⟩ : TopIssue)) ++
      ((performAccessibilityScan o.accessibility).issues.map fun i =>
        (⟨"Accessibility", i.severity, i.message⟩ : TopIssue)) ++
      (match (performPerformanceScan o.performance).score with
       | some sc => if sc < 50 then [perfTopIssue sc] else []
       | none => [])) ≤ 7
  rw [List.countP_append, List.countP_append]
  have h1 := security_high_count o.security
  have h2 := accessibility_high_count o.accessibility
  have h3 := perf_segment_count (performPerformanceScan o.performance).score
  omega

/-- In a sorted-and-sliced `top_issues` list, a minimal-rank entry of the
pre-slice list always survives `slice(0, 10)` as long as the pre-slice
list holds at most 7 minimal-rank entries: the sort puts only
minimal-rank entries ahead of it, so its position is below 10. -/
lemma mem_take_ten_of_high (pre : List TopIssue) (x : TopIssue)
    (hx : x ∈ pre) (hhigh : isHighRank x = true)
    (hcount : List.countP isHighRank pre ≤ 7) :
    x ∈ (pre.mergeSort topIssueLE).take 10 := by
  set l := pre.mergeSort topIssueLE with hl
  have hperm : l.Perm pre := List.mergeSort_perm pre topIssueLE
  have hxl : x ∈ l := hperm.mem_iff.mpr hx
  by_contra hnot
  have hxd : x ∈ l.drop 10 := by
    rcases List.mem_append.mp ((List.take_append_drop 10 l).symm ▸ hxl) with h | h
    · exact absurd h hnot
    · exact h
  have hsorted : List.Pairwise (fun a b => topIssueLE a b = true) l :=
    List.sorted_mergeSort topIssueLE_trans topIssueLE_total pre
  have hlen10 : (l.take 10).length = 10 := by
    have hne : l.drop 10 ≠ [] := List.ne_nil_of_mem hxd
    have : (l.drop 10).length = l.length - 10 := List.length_drop 10 l
    have hgt : 10 < l.length := by
      rcases Nat.lt_or_ge 10 l.length with h | h
      · exact h
      · exact absurd (by simp [List.drop_eq_nil_of_le h]) hne
    rw [List.length_take]
    omega
  have htake_high : ∀ a ∈ l.take 10, isHighRank a = true := by
    intro a ha
    have hpair : topIssueLE a x = true := by
      have hs := (List.take_append_drop 10 l).symm ▸ hsorted
      exact (List.pairwise_append.mp hs).2.2 a ha x hxd
    simp only [topIssueLE, Nat.ble_eq] at hpair
    simp only [isHighRank, highRank, Nat.ble_eq] at hhigh ⊢
    omega
  have hc_take : List.countP isHighRank (l.take 10) = 10 := by
    have := List.countP_eq_length.mpr htake_high
    rw [hlen10] at this
    exact this
  have hc_drop : 0 < List.countP isHighRank (l.drop 10) :=
    List.countP_pos_iff.mpr ⟨x, hxd, hhigh⟩
  have hc_split : List.countP isHighRank l =
      List.countP isHighRank (l.take 10) + List.countP isHighRank (l.drop 10) := by
    rw [← List.countP_append, List.take_append_drop]
  have hc_pre : List.countP isHighRank l = List.countP isHighRank pre :=
    hperm.countP_eq _
  omega

/-- C10. The synthetic high-severity "poor performance" entry is added to
`top_issues` whenever the performance result carries a defined score
below 50, regardless of the analyzer's status — its presence in the
final sliced list is unconditional for pipeline scans, because at most 6
other minimal-rank (high) issues can sort ahead of it; and a performance
analyzer that failed inside its own handler (score 0, status failed)
contributes zero weight to the overall score — removing the performance
section entirely yields the same overall score. -/
theorem c10_failed_perf_still_flagged (o : Oracles) (sc : ℚ)
    (hsc : (performPerformanceScan o.performance).score = some sc) (h50 : sc < 50) :
    perfTopIssue sc ∈ extractTopIssues (performScan o) ∧
    ((performPerformanceScan o.performance).status = .failed →
      calculateOverallScore (performScan o) =
        calculateOverallScore { performScan o with performance := none }) := by
  constructor
  · have hmem : perfTopIssue sc ∈ topIssuesPre (performScan o) := by
      show perfTopIssue sc ∈ (_ ++ _ ++
        (match (performPerformanceScan o.performance).score with
         | some s => if s < 50 then [perfTopIssue s] else []
         | none => []))
      rw [hsc]
      show perfTopIssue sc ∈ _ ++ _ ++ (if sc < 50 then [perfTopIssue sc] else [])
      rw [if_pos h50]
      exact List.mem_append_right _ (List.mem_singleton.mpr rfl)
    exact mem_take_ten_of_high _ _ hmem rfl (topIssuesPre_high_count o)
  · intro hst
    have h1 : performanceContrib (performScan o).performance = (0, 0) := by
      show performanceContrib (some (performPerformanceScan o.performance)) = (0, 0)
      simp [performanceContrib, hst]
    have h2 : performanceContrib (none : Option PerformanceResults) = (0, 0) := rfl
    simp [calculateOverallScore, h1, h2]

/-- C10 witness: the theorem at the all-error oracle, whose performance
section is the failed handler record with score 0 and status failed. -/
theorem c10_witness :
    perfTopIssue 0 ∈ extractTopIssues (performScan allFailedOracles) ∧
    calculateOverallScore (performScan allFailedOracles) =
      calculateOverallScore { performScan allFailedOracles with performance := none } := by
  have h := c10_failed_perf_still_flagged allFailedOracles 0 rfl (by norm_num)
  exact ⟨h.1, h.2 rfl⟩

end Robolab
